import Mathlib

/-!
Verification of the stage-0 bootstrap header shim
(`src/toolchain/src/bootstrap-include/{assert,stdio,stdlib,string}.h`).

The shim is a declaration/macro surface.  We embed it at two levels:

* a token-level model of the simple preprocessor defines
  (`fflush`, `static_assert`, `stderr`, `alloca`);
* an AST-level model (`CExpr`) of the two expansions of the `assert`
  macro, with a small-step-free trace semantics (`evalE`) recording the
  observable events (evaluation of the asserted operand, the diagnostic
  `fprintf` call, the `__builtin_trap` issued by `abort`) and a C type
  checker (`tcheck`);
* a declaration-table model (`CFunDecl`) of the function declarations in
  the three headers, recording parameter types, `restrict` qualifiers,
  variadicity, `_Noreturn`, and whether the shim supplies a body.
-/

namespace BootstrapShim

/-- The compile-time build configuration flag (`#ifdef DEBUG`): fixed for
the whole build, selects the `assert` expansion variant. -/
inductive BuildConfig
  | Debug
  | Release
  deriving DecidableEq, Repr

/-- The C types appearing in the shim's declarations.  `ptr c t` is a
pointer to `t`, with `c = true` when the pointee is `const`-qualified. -/
inductive CType
  | void
  | intT
  | charT
  | sizeT
  | ptr (constPointee : Bool) (pointee : CType)
  deriving DecidableEq, Repr

/-- `char *` -/
def ccharp : CType := CType.ptr false CType.charT

/-- `const char *` -/
def cccharp : CType := CType.ptr true CType.charT

/-- `void *` -/
def cvoidp : CType := CType.ptr false CType.void

/-- `const void *` -/
def ccvoidp : CType := CType.ptr true CType.void

/-- C scalar types (valid operands of `!` and `&&`). -/
def isScalar : CType → Bool
  | CType.void => false
  | CType.intT => true
  | CType.charT => true
  | CType.sizeT => true
  | CType.ptr _ _ => true

/-- Pointer types. -/
def isPointer : CType → Bool
  | CType.ptr _ _ => true
  | _ => false

/-- One declared parameter: name, type, and whether it carries the
`__restrict` (non-overlapping-buffer) qualifier. -/
structure CParam where
  pname : String
  ptype : CType
  restrict : Bool
  deriving DecidableEq, Repr

/-- Statements occurring in shim-supplied function bodies.  The only body
in the whole shim is `abort`, whose body is the single builtin trap. -/
inductive Stmt
  | builtinTrap
  deriving DecidableEq, Repr

/-- A function declaration of the shim: signature plus whether the shim
itself supplies a body (`static inline`) or leaves the symbol external. -/
structure CFunDecl where
  fname : String
  ret : CType
  params : List CParam
  variadic : Bool := false
  noreturn : Bool := false
  hasBody : Bool := false
  body : List Stmt := []
  deriving DecidableEq, Repr

/-- Observable events of the trace semantics.  `evalOperand` marks one
evaluation of the asserted expression `x` (where its side effects, if
any, would fire); `write dest fmt args` is the diagnostic `fprintf` call
with the already-evaluated destination handle, the format string, and the
variadic arguments; `trap` is `__builtin_trap()`. -/
inductive FArg
  | str (s : String)
  | int (n : Int)
  deriving DecidableEq, BEq, Repr

inductive Event
  | evalOperand
  | write (dest : Int) (fmt : String) (args : List FArg)
  | trap
  deriving DecidableEq, BEq, Repr

/-- The fragment of C expressions used by the `assert.h` macro bodies.
`operand` stands for the asserted expression `x`; `nullPtr` is the `NULL`
that the `stderr` object-like macro expands to. -/
inductive CExpr
  | operand
  | nullPtr
  | lit (n : Int)
  | lnot (e : CExpr)
  | land (a b : CExpr)
  | comma (a b : CExpr)
  | fprintfCall (dest : CExpr) (fmt : String) (args : List FArg)
  | abortCall
  | castVoid (e : CExpr)
  | sizeOf (e : CExpr)
  deriving DecidableEq, Repr

/-- Execution of a shim-supplied body: the trap halts execution at once
(`false` = does not fall through to return), emitting only the trap
event — no unwinding and no cleanup events exist. -/
def runStmts : List Stmt → List Event × Bool
  | [] => ([], true)
  | Stmt.builtinTrap :: _ => ([Event.trap], false)

/-- `_Noreturn static inline void abort(void) { __builtin_trap(); }`
from `stdlib.h`. -/
def abortDecl : CFunDecl :=
  { fname := "abort", ret := CType.void, params := [],
    noreturn := true, hasBody := true, body := [Stmt.builtinTrap] }

/-- `extern void *malloc(size_t len);` -/
def mallocDecl : CFunDecl :=
  { fname := "malloc", ret := cvoidp, params := [⟨"len", CType.sizeT, false⟩] }

/-- `extern char *getenv(const char *name);` -/
def getenvDecl : CFunDecl :=
  { fname := "getenv", ret := ccharp, params := [⟨"name", cccharp, false⟩] }

/-- `extern void free(void *ptr);` -/
def freeDecl : CFunDecl :=
  { fname := "free", ret := CType.void, params := [⟨"ptr", cvoidp, false⟩] }

/-- The function declarations of `stdlib.h`.  The header contains no
preprocessor conditional, so the table does not depend on the build
configuration. -/
def stdlibHeader (_cfg : BuildConfig) : List CFunDecl :=
  [abortDecl, mallocDecl, getenvDecl, freeDecl]

/-- `extern int printf(const char *fmt, ...);` -/
def printfDecl : CFunDecl :=
  { fname := "printf", ret := CType.intT,
    params := [⟨"fmt", cccharp, false⟩], variadic := true }

/-- `extern int fprintf(void *f, const char *fmt, ...);` — declaration
only: the shim supplies no body, so the shim never dereferences `f`. -/
def fprintfDecl : CFunDecl :=
  { fname := "fprintf", ret := CType.intT,
    params := [⟨"f", cvoidp, false⟩, ⟨"fmt", cccharp, false⟩], variadic := true }

/-- The function declarations of `stdio.h` (configuration-independent:
the header has no preprocessor conditional). -/
def stdioHeader (_cfg : BuildConfig) : List CFunDecl :=
  [printfDecl, fprintfDecl]

/-- A preprocessor `#define`: name, whether it is function-like variadic,
and the replacement token list. -/
structure CDefine where
  dname : String
  variadic : Bool
  body : List String
  deriving DecidableEq, Repr

/-- Token substitution of the variadic argument list into a replacement
list (the only parameter any of the modelled defines could mention). -/
def substTokens (args : List String) : List String → List String
  | [] => []
  | tok :: rest =>
      (if tok = "__VA_ARGS__" then args else [tok]) ++ substTokens args rest

/-- Expansion of a `#define` at an argument list. -/
def expandDefine (m : CDefine) (args : List String) : List String :=
  substTokens args m.body

/-- `#define fflush(...)` from `stdio.h`: variadic, empty replacement. -/
def fflushDefine : CDefine :=
  { dname := "fflush", variadic := true, body := [] }

/-- `#define stderr NULL` from `stdio.h`: an object-like define whose
replacement is the null pointer constant. -/
def stderrDefine : CDefine :=
  { dname := "stderr", variadic := false, body := ["NULL"] }

/-- `#define static_assert(...)` from `assert.h`: variadic, empty
replacement.  It is defined outside the `#ifdef DEBUG` conditional, so it
is present with this body in both configurations. -/
def staticAssertDefine : CDefine :=
  { dname := "static_assert", variadic := true, body := [] }

/-- `#define alloca __builtin_alloca` from `stdlib.h`. -/
def allocaDefine : CDefine :=
  { dname := "alloca", variadic := false, body := ["__builtin_alloca"] }

/-- Expansion of `fflush(args)`.  `stdio.h` has no configuration
conditional, so the expansion is the same in every build configuration. -/
def fflushExpansion (_cfg : BuildConfig) (args : List String) : List String :=
  expandDefine fflushDefine args

/-- Expansion of `static_assert(args)`.  The define sits outside the
`#ifdef DEBUG` block of `assert.h`, hence is identical in Debug and
Release. -/
def staticAssertExpansion (_cfg : BuildConfig) (args : List String) : List String :=
  expandDefine staticAssertDefine args

/-- The `stderr` macro occurrence inside the `assert` body, after the
preprocessor replaces it by `NULL`. -/
def stderrExpr : CExpr := CExpr.nullPtr

/-- The format string literal of the Debug `assert` diagnostic:
`"assertion failed: " #x " at %s:%d"` after string-literal concatenation
with the stringified operand text. -/
def debugAssertFmt (xtext : String) : String :=
  "assertion failed: " ++ xtext ++ " at %s:%d"

/-- The expansion of `assert(x)` as a function of the build configuration
(`#ifdef DEBUG`), the stringified source text `#x`, and the `__FILE__` /
`__LINE__` literals:

Debug:   `((void)(!(x) && fprintf(stderr, "assertion failed: " #x
         " at %s:%d", __FILE__, __LINE__) && (abort(), 1)))`
Release: `((void)sizeof(x))` -/
def assertExpansion (cfg : BuildConfig) (xtext file : String) (line : Int) : CExpr :=
  match cfg with
  | BuildConfig.Debug =>
      CExpr.castVoid
        (CExpr.land
          (CExpr.land (CExpr.lnot CExpr.operand)
            (CExpr.fprintfCall stderrExpr (debugAssertFmt xtext)
              [FArg.str file, FArg.int line]))
          (CExpr.comma CExpr.abortCall (CExpr.lit 1)))
  | BuildConfig.Release =>
      CExpr.castVoid (CExpr.sizeOf CExpr.operand)

/-- Trace semantics for the macro-body expression fragment.
`xval` is the boolean value the operand evaluates to; `fret` is the value
returned by the externally linked `fprintf` for the diagnostic call.
The result is the emitted event trace together with `some` value when the
expression completes normally and `none` when control never returns (the
trap).  `&&` and `,` are the C short-circuit / sequencing semantics;
`sizeof` does not evaluate its operand and yields a compile-time constant
(the value is unspecified here and discarded by the enclosing cast). -/
def evalE (xval : Bool) (fret : Int) : CExpr → List Event × Option Int
  | CExpr.operand => ([Event.evalOperand], some (if xval then 1 else 0))
  | CExpr.nullPtr => ([], some 0)
  | CExpr.lit n => ([], some n)
  | CExpr.lnot e =>
      match evalE xval fret e with
      | (t, none) => (t, none)
      | (t, some n) => (t, some (if n = 0 then 1 else 0))
  | CExpr.land a b =>
      match evalE xval fret a with
      | (t, none) => (t, none)
      | (t, some n) =>
          if n = 0 then (t, some 0)
          else
            match evalE xval fret b with
            | (t2, none) => (t ++ t2, none)
            | (t2, some m) => (t ++ t2, some (if m = 0 then 0 else 1))
  | CExpr.comma a b =>
      match evalE xval fret a with
      | (t, none) => (t, none)
      | (t, some _) =>
          match evalE xval fret b with
          | (t2, r) => (t ++ t2, r)
  | CExpr.fprintfCall d fmt args =>
      match evalE xval fret d with
      | (t, none) => (t, none)
      | (t, some p) => (t ++ [Event.write p fmt args], some fret)
  | CExpr.abortCall =>
      match runStmts abortDecl.body with
      | (t, true) => (t, some 0)
      | (t, false) => (t, none)
  | CExpr.castVoid e =>
      match evalE xval fret e with
      | (t, none) => (t, none)
      | (t, some _) => (t, some 0)
  | CExpr.sizeOf _ => ([], some 1)

/-- Type checking for the fragment, with `xty` the type of the operand
(`none` when the asserted expression is ill-typed, in which case every
context containing it fails too).  `!` and `&&` require scalar operands;
`fprintf`'s destination must be a pointer (matching its `void *f`
parameter); `sizeof` requires a well-typed non-`void` operand and yields
`size_t`; a cast to `void` accepts any well-typed operand. -/
def tcheck (xty : Option CType) : CExpr → Option CType
  | CExpr.operand => xty
  | CExpr.nullPtr => some cvoidp
  | CExpr.lit _ => some CType.intT
  | CExpr.lnot e =>
      match tcheck xty e with
      | some t => if isScalar t then some CType.intT else none
      | none => none
  | CExpr.land a b =>
      match tcheck xty a, tcheck xty b with
      | some t1, some t2 =>
          if isScalar t1 && isScalar t2 then some CType.intT else none
      | _, _ => none
  | CExpr.comma a b =>
      match tcheck xty a with
      | some _ => tcheck xty b
      | none => none
  | CExpr.fprintfCall d _ _ =>
      match tcheck xty d with
      | some t => if isPointer t then some CType.intT else none
      | none => none
  | CExpr.abortCall => some CType.void
  | CExpr.castVoid e =>
      match tcheck xty e with
      | some _ => some CType.void
      | none => none
  | CExpr.sizeOf e =>
      match tcheck xty e with
      | some t => if t = CType.void then none else some CType.sizeT
      | none => none

/-- `void *memcpy(void *__restrict dest, const void *__restrict src, size_t size);` -/
def memcpyDecl : CFunDecl :=
  { fname := "memcpy", ret := cvoidp,
    params := [⟨"dest", cvoidp, true⟩, ⟨"src", ccvoidp, true⟩,
               ⟨"size", CType.sizeT, false⟩] }

/-- `void *memmove(void *dest, const void *src, size_t size);` -/
def memmoveDecl : CFunDecl :=
  { fname := "memmove", ret := cvoidp,
    params := [⟨"dest", cvoidp, false⟩, ⟨"src", ccvoidp, false⟩,
               ⟨"size", CType.sizeT, false⟩] }

/-- `char *strcpy(char *__restrict dest, const char *src);` — note: the
source parameter carries no `__restrict` qualifier in the header. -/
def strcpyDecl : CFunDecl :=
  { fname := "strcpy", ret := ccharp,
    params := [⟨"dest", ccharp, true⟩, ⟨"src", cccharp, false⟩] }

/-- `char *strncpy(char *__restrict dest, const char *src, size_t max_size);`
— as with `strcpy`, the source parameter carries no `__restrict`. -/
def strncpyDecl : CFunDecl :=
  { fname := "strncpy", ret := ccharp,
    params := [⟨"dest", ccharp, true⟩, ⟨"src", cccharp, false⟩,
               ⟨"max_size", CType.sizeT, false⟩] }

/-- `char *strcat(char *__restrict dest, const char *__restrict src);` -/
def strcatDecl : CFunDecl :=
  { fname := "strcat", ret := ccharp,
    params := [⟨"dest", ccharp, true⟩, ⟨"src", cccharp, true⟩] }

/-- `char *strncat(char *__restrict dest, const char *__restrict src, size_t max_size);` -/
def strncatDecl : CFunDecl :=
  { fname := "strncat", ret := ccharp,
    params := [⟨"dest", ccharp, true⟩, ⟨"src", cccharp, true⟩,
               ⟨"max_size", CType.sizeT, false⟩] }

/-- `int memcmp(const void *a, const void *b, size_t size);` -/
def memcmpDecl : CFunDecl :=
  { fname := "memcmp", ret := CType.intT,
    params := [⟨"a", ccvoidp, false⟩, ⟨"b", ccvoidp, false⟩,
               ⟨"size", CType.sizeT, false⟩] }

/-- `int strcmp(const char *a, const char *b);` -/
def strcmpDecl : CFunDecl :=
  { fname := "strcmp", ret := CType.intT,
    params := [⟨"a", cccharp, false⟩, ⟨"b", cccharp, false⟩] }

/-- `int strcoll(const char *a, const char *b);` -/
def strcollDecl : CFunDecl :=
  { fname := "strcoll", ret := CType.intT,
    params := [⟨"a", cccharp, false⟩, ⟨"b", cccharp, false⟩] }

/-- `int strncmp(const char *a, const char *b, size_t max_size);` -/
def strncmpDecl : CFunDecl :=
  { fname := "strncmp", ret := CType.intT,
    params := [⟨"a", cccharp, false⟩, ⟨"b", cccharp, false⟩,
               ⟨"max_size", CType.sizeT, false⟩] }

/-- `size_t strxfrm(char *__restrict dest, const char *__restrict src, size_t max_size);` -/
def strxfrmDecl : CFunDecl :=
  { fname := "strxfrm", ret := CType.sizeT,
    params := [⟨"dest", ccharp, true⟩, ⟨"src", cccharp, true⟩,
               ⟨"max_size", CType.sizeT, false⟩] }

/-- `void *memchr(const void *s, int c, size_t size);` -/
def memchrDecl : CFunDecl :=
  { fname := "memchr", ret := cvoidp,
    params := [⟨"s", ccvoidp, false⟩, ⟨"c", CType.intT, false⟩,
               ⟨"size", CType.sizeT, false⟩] }

/-- `char *strchr(const char *s, int c);` -/
def strchrDecl : CFunDecl :=
  { fname := "strchr", ret := ccharp,
    params := [⟨"s", cccharp, false⟩, ⟨"c", CType.intT, false⟩] }

/-- `size_t strcspn(const char *s, const char *chrs);` -/
def strcspnDecl : CFunDecl :=
  { fname := "strcspn", ret := CType.sizeT,
    params := [⟨"s", cccharp, false⟩, ⟨"chrs", cccharp, false⟩] }

/-- `char *strpbrk(const char *s, const char *chrs);` -/
def strpbrkDecl : CFunDecl :=
  { fname := "strpbrk", ret := ccharp,
    params := [⟨"s", cccharp, false⟩, ⟨"chrs", cccharp, false⟩] }

/-- `char *strrchr(const char *s, int c);` -/
def strrchrDecl : CFunDecl :=
  { fname := "strrchr", ret := ccharp,
    params := [⟨"s", cccharp, false⟩, ⟨"c", CType.intT, false⟩] }

/-- `size_t strspn(const char *s, const char *chrs);` -/
def strspnDecl : CFunDecl :=
  { fname := "strspn", ret := CType.sizeT,
    params := [⟨"s", cccharp, false⟩, ⟨"chrs", cccharp, false⟩] }

/-- `char *strstr(const char *pattern, const char *s);` -/
def strstrDecl : CFunDecl :=
  { fname := "strstr", ret := ccharp,
    params := [⟨"pattern", cccharp, false⟩, ⟨"s", cccharp, false⟩] }

/-- `char *strtok(char *__restrict s, const char *__restrict delimiter);` -/
def strtokDecl : CFunDecl :=
  { fname := "strtok", ret := ccharp,
    params := [⟨"s", ccharp, true⟩, ⟨"delimiter", cccharp, true⟩] }

/-- `char *strchrnul(const char *, int);` (GNU extension) -/
def strchrnulDecl : CFunDecl :=
  { fname := "strchrnul", ret := ccharp,
    params := [⟨"", cccharp, false⟩, ⟨"", CType.intT, false⟩] }

/-- `void *memset(void *dest, int c, size_t size);` -/
def memsetDecl : CFunDecl :=
  { fname := "memset", ret := cvoidp,
    params := [⟨"dest", cvoidp, false⟩, ⟨"c", CType.intT, false⟩,
               ⟨"size", CType.sizeT, false⟩] }

/-- `char *strerror(int errnum);` -/
def strerrorDecl : CFunDecl :=
  { fname := "strerror", ret := ccharp,
    params := [⟨"errnum", CType.intT, false⟩] }

/-- `size_t strlen(const char *s);` -/
def strlenDecl : CFunDecl :=
  { fname := "strlen", ret := CType.sizeT,
    params := [⟨"s", cccharp, false⟩] }

/-- The full declaration catalog of `string.h`, in source order. -/
def stringHeader : List CFunDecl :=
  [memcpyDecl, memmoveDecl, strcpyDecl, strncpyDecl,
   strcatDecl, strncatDecl,
   memcmpDecl, strcmpDecl, strcollDecl, strncmpDecl, strxfrmDecl,
   memchrDecl, strchrDecl, strcspnDecl, strpbrkDecl, strrchrDecl,
   strspnDecl, strstrDecl, strtokDecl, strchrnulDecl,
   memsetDecl, strerrorDecl, strlenDecl]

/-- The copy, concatenate and transform operations named by the spec. -/
def stringCopyOps : List CFunDecl :=
  [memcpyDecl, strcpyDecl, strncpyDecl, strcatDecl, strncatDecl, strxfrmDecl]

/-- A declaration carries `__restrict` on every pointer-typed (buffer)
parameter. -/
def restrictOnAllBufferParams (d : CFunDecl) : Bool :=
  d.params.all (fun p => !(isPointer p.ptype) || p.restrict)

/-- A declaration carries `__restrict` on its first (destination)
parameter, which is pointer-typed. -/
def restrictOnDest (d : CFunDecl) : Bool :=
  match d.params with
  | p :: _ => isPointer p.ptype && p.restrict
  | [] => false

/-- Number of evaluations of the asserted operand recorded in a trace. -/
def countEval : List Event → Nat
  | [] => 0
  | Event.evalOperand :: rest => countEval rest + 1
  | _ :: rest => countEval rest

/-- C1: In the Debug configuration, for a side-effect-free boolean operand,
`assert(x)` aborts (the evaluation does not return, and the trap event is
emitted) if and only if the operand is false; when the operand is true the
trace holds nothing but the one (side-effect-free) operand evaluation — no
diagnostic write and no abort.  The hypothesis `fret ≠ 0` is the contract
of the externally linked `fprintf`: it returns the (positive) number of
characters transmitted or a negative error value, never zero for this
nonempty diagnostic. -/
theorem assert_debug_aborts_iff_false (xtext file : String) (line : Int)
    (v : Bool) (fret : Int) (hf : fret ≠ 0) :
    ((evalE v fret (assertExpansion BuildConfig.Debug xtext file line)).2 = none
       ↔ v = false) ∧
    (Event.trap ∈ (evalE v fret (assertExpansion BuildConfig.Debug xtext file line)).1
       ↔ v = false) ∧
    (v = true →
      (evalE v fret (assertExpansion BuildConfig.Debug xtext file line)).1
        = [Event.evalOperand]) := by
  cases v <;>
    simp [assertExpansion, evalE, stderrExpr, runStmts, abortDecl, hf]

/-- Witness for C1 at a concrete failing assertion. -/
theorem assert_debug_aborts_iff_false_witness :
    (17 : Int) ≠ 0 ∧
    ((evalE false 17 (assertExpansion BuildConfig.Debug "x == 1" "main.c" 42)).2 = none
       ↔ false = false) :=
  ⟨by decide,
   (assert_debug_aborts_iff_false "x == 1" "main.c" 42 false 17 (by decide)).1⟩

/-- C2: In the Release configuration, `assert(x)` expands to
`((void)sizeof(x))`: its evaluation emits no event at all (the operand is
never evaluated, so its side effects never fire, and no runtime
instruction is modelled) for every operand value and every environment;
an ill-typed operand still makes the whole expansion ill-typed; a
well-typed scalar operand type-checks, at type `void`. -/
theorem assert_release_noop_typechecked (xtext file : String) (line : Int) :
    (∀ (v : Bool) (fret : Int),
      evalE v fret (assertExpansion BuildConfig.Release xtext file line)
        = ([], some 0)) ∧
    tcheck none (assertExpansion BuildConfig.Release xtext file line) = none ∧
    (∀ t : CType, isScalar t = true →
      tcheck (some t) (assertExpansion BuildConfig.Release xtext file line)
        = some CType.void) := by
  refine ⟨fun v fret => rfl, rfl, ?_⟩
  intro t ht
  cases t <;> simp_all [assertExpansion, tcheck, isScalar]

/-- Witness for C2 at a concrete side-effecting operand text. -/
theorem assert_release_noop_typechecked_witness :
    isScalar CType.intT = true ∧
    tcheck (some CType.intT)
      (assertExpansion BuildConfig.Release "count++" "main.c" 7)
        = some CType.void :=
  ⟨rfl, (assert_release_noop_typechecked "count++" "main.c" 7).2.2 CType.intT rfl⟩

/-- C3: In the Debug configuration, `assert(x)` evaluates the operand
exactly once (in every case, whatever the linked `fprintf` returns); a
true operand produces neither the diagnostic write nor the abort; a false
operand (with a conforming `fprintf`, return value nonzero) produces the
operand evaluation, then the diagnostic write — whose format string embeds
the literal source text of the operand, and whose arguments are the source
file path and the line number — and then the trap, in this short-circuit
order. -/
theorem assert_debug_single_eval_chain (xtext file : String) (line : Int)
    (v : Bool) (fret : Int) :
    countEval (evalE v fret (assertExpansion BuildConfig.Debug xtext file line)).1 = 1 ∧
    (v = true →
      (evalE v fret (assertExpansion BuildConfig.Debug xtext file line)).1
        = [Event.evalOperand]) ∧
    (v = false → fret ≠ 0 →
      (evalE v fret (assertExpansion BuildConfig.Debug xtext file line)).1
        = [Event.evalOperand,
           Event.write 0 (debugAssertFmt xtext) [FArg.str file, FArg.int line],
           Event.trap]) ∧
    (∃ pre post, debugAssertFmt xtext = pre ++ xtext ++ post) := by
  refine ⟨?_, ?_, ?_, ⟨"assertion failed: ", " at %s:%d", rfl⟩⟩
  · cases v
    · by_cases hf : fret = 0 <;>
        simp [assertExpansion, evalE, stderrExpr, runStmts, abortDecl, hf, countEval]
    · simp [assertExpansion, evalE, countEval]
  · intro hv; subst hv
    simp [assertExpansion, evalE]
  · intro hv hf; subst hv
    simp [assertExpansion, evalE, stderrExpr, runStmts, abortDecl, hf]

/-- Witness for C3: the failing-assertion trace at concrete inputs,
obtained from the theorem with both hypotheses discharged. -/
theorem assert_debug_single_eval_chain_witness :
    (evalE false 5 (assertExpansion BuildConfig.Debug "n > 0" "a.c" 9)).1
      = [Event.evalOperand,
         Event.write 0 (debugAssertFmt "n > 0") [FArg.str "a.c", FArg.int 9],
         Event.trap] :=
  (assert_debug_single_eval_chain "n > 0" "a.c" 9 false 5).2.2.1 rfl (by decide)

/-- C5 counterexample: `strcpy`'s source parameter carries no
`__restrict` qualifier in `string.h`, so it is not the case that every
copy/concatenate/transform operation marks all of its buffer parameters
with `restrict`. -/
theorem strcpy_src_lacks_restrict :
    restrictOnAllBufferParams strcpyDecl = false ∧
    stringCopyOps.all restrictOnAllBufferParams = false :=
  ⟨rfl, rfl⟩

/-- C5 (amended): every copy/concatenate/transform operation of the
string module carries `restrict` on its (pointer-typed) destination
parameter; `memcpy`, `strcat`, `strncat` and `strxfrm` carry it on all
buffer parameters, while `strcpy` and `strncpy` leave their source
parameter unmarked. -/
theorem copy_ops_restrict_per_param :
    stringCopyOps.all restrictOnDest = true ∧
    [memcpyDecl, strcatDecl, strncatDecl, strxfrmDecl].all
      restrictOnAllBufferParams = true ∧
    restrictOnAllBufferParams strncpyDecl = false :=
  ⟨rfl, rfl, rfl⟩

/-- C6: `abort` is defined in the shim with `_Noreturn`; running its body
emits exactly the one trap event and never falls through to a return (no
unwinding or cleanup events exist in the semantics); calling it from an
expression yields the trap trace and no result value; and the declaration
is present, identically, in the `stdlib.h` table of both build
configurations. -/
theorem abort_trap_noreturn :
    runStmts abortDecl.body = ([Event.trap], false) ∧
    abortDecl.noreturn = true ∧
    abortDecl.hasBody = true ∧
    (∀ (v : Bool) (fret : Int), evalE v fret CExpr.abortCall = ([Event.trap], none)) ∧
    (∀ cfg : BuildConfig, abortDecl ∈ stdlibHeader cfg) ∧
    stdlibHeader BuildConfig.Debug = stdlibHeader BuildConfig.Release := by
  refine ⟨rfl, rfl, rfl, fun v fret => rfl, fun cfg => ?_, rfl⟩
  simp [stdlibHeader]

/-- C7: `fflush(args)` expands to the empty token list for every argument
list and in every build configuration: the arguments are discarded, the
expansion is nothing, and no code can be emitted; the define is variadic,
so any argument list is accepted. -/
theorem fflush_noop (cfg : BuildConfig) (args : List String) :
    fflushExpansion cfg args = [] ∧ fflushDefine.variadic = true :=
  ⟨rfl, rfl⟩

/-- C8: the `stderr` define expands to the null pointer token; evaluating
its expression form yields the null value (0) with an empty trace (no
dereference); `fprintf` is declared with a `void *` destination as first
parameter (so the null handle is accepted) and has no body in the shim
(so the shim cannot dereference it); and passing `stderr` through the
output call merely records a write event carrying the null handle,
returning whatever the external implementation returns. -/
theorem stderr_null_not_dereferenced :
    expandDefine stderrDefine [] = ["NULL"] ∧
    evalE true 0 stderrExpr = ([], some 0) ∧
    (fprintfDecl.params.map fun p => p.ptype) = [cvoidp, cccharp] ∧
    fprintfDecl.hasBody = false ∧
    (∀ cfg : BuildConfig, fprintfDecl ∈ stdioHeader cfg) ∧
    (∀ (v : Bool) (fret : Int) (fmt : String) (args : List FArg),
      evalE v fret (CExpr.fprintfCall stderrExpr fmt args)
        = ([Event.write 0 fmt args], some fret)) := by
  refine ⟨rfl, rfl, rfl, rfl, fun cfg => ?_, fun v fret fmt args => rfl⟩
  simp [stdioHeader]

/-- C9: `static_assert(args)` expands to the empty token list for every
argument list and in both build configurations (it is defined outside the
`#ifdef DEBUG` conditional): no constant-expression check is performed
and no code is emitted. -/
theorem static_assert_always_noop (cfg : BuildConfig) (args : List String) :
    staticAssertExpansion cfg args = [] ∧ staticAssertDefine.body = [] :=
  ⟨rfl, rfl⟩

/-- C10: in both build configurations the expansion of `assert(x)` is an
expression of type `void` (each variant is wrapped in a cast to `void`),
for every well-typed scalar operand, so surrounding code can never
consume an assertion as a value. -/
theorem assert_expansion_void_type (cfg : BuildConfig) (xtext file : String)
    (line : Int) (t : CType) (h : isScalar t = true) :
    tcheck (some t) (assertExpansion cfg xtext file line) = some CType.void := by
  cases cfg <;> cases t <;>
    simp_all [assertExpansion, tcheck, isScalar, isPointer, stderrExpr, cvoidp]

/-- Witness for C10 at a concrete operand type and call site. -/
theorem assert_expansion_void_type_witness :
    isScalar CType.intT = true ∧
    tcheck (some CType.intT)
      (assertExpansion BuildConfig.Debug "p != 0" "k.c" 3) = some CType.void :=
  ⟨rfl, assert_expansion_void_type BuildConfig.Debug "p != 0" "k.c" 3 CType.intT rfl⟩

end BootstrapShim
